import Mathlib

/-!
Verification of the ADMET compound-triage pipeline of `admet_analysis.py`.

The core of the program is a deterministic rule engine over per-compound
property rows (pandas rows whose cells are strings, numbers, or absent).
We embed one row as a `Row` of `Val` cells and translate the five stage
functions (`apply_primary_filters`, `apply_developability_filters`,
`calculate_adme_penalties`, `calculate_developability_score`,
`make_final_decision`) and the per-row body of `run_admet_prediction`
directly from the source.

Numbers are modelled as rationals; Python `float()` conversion with a
`try/except` default is `get_float`.
-/

/-- A cell of a property row, as the Python code can observe it:
absent (`row.get` returns the default / `None`), a string that does not
parse as a float, a string that parses as the given float, or a
number (Python `int`/`float`/`bool`; booleans are numbers `0`/`1`). -/
inductive Val where
  | missing : Val
  | str : String → Val
  | numStr : ℚ → Val
  | num : ℚ → Val
deriving DecidableEq, Repr

/-- Python `value == "s"` for a string literal `s`: only a genuine string
cell with the same characters compares equal (a number never equals a
string; a float-parsable string never equals a non-parsable literal). -/
def Val.eqStr : Val → String → Bool
  | Val.str t, s => t == s
  | _, _ => false

/-- Python `value == c` for a numeric literal `c` (so `1.0 == 1` and
`True == 1` hold, while `"1" == 1` does not). -/
def Val.eqNum : Val → ℚ → Bool
  | Val.num q, c => q == c
  | _, _ => false

/-- `isinstance(v, (int, float)) and v >= c`. -/
def Val.numGE : Val → ℚ → Bool
  | Val.num q, c => decide (c ≤ q)
  | _, _ => false

/-- `isinstance(v, (int, float)) and lo <= v < hi`. -/
def Val.numInBand : Val → ℚ → ℚ → Bool
  | Val.num q, lo, hi => decide (lo ≤ q) && decide (q < hi)
  | _, _, _ => false

/-- `row.get(key, default)`: the default replaces an absent cell. -/
def getD (v d : Val) : Val :=
  match v with
  | Val.missing => d
  | _ => v

/-- The `get_float` helper of `apply_developability_filters` (and the
inline `try: float(x) except: default` pattern elsewhere): a number or a
float-parsable string converts, anything else falls back to the default. -/
def get_float (v : Val) (d : ℚ) : ℚ :=
  match v with
  | Val.num q => q
  | Val.numStr q => q
  | _ => d

/-- One property row of the merged dataframe, restricted to the columns
the triage logic reads.  Field ↔ column: `lipinski` = "Lipinski",
`pains` = "PAINS", `brenk` = "Brenk", `ames` = "Ames", `hERG` = "hERG",
`carcinogenicity` = "Carcinogenicity", `dili` = "DILI",
`saScore` = "SA Score", `qed` = "QED", `mw` = "MW", `tpsa` = "TPSA",
`wlogp` = "WLogP", `giAbsorption` = "GI Absorption",
`caco2` = "Caco-2 (Wang)", `bbb` = "BBB (Martins)", `ppb` = "PPB (AZ)",
`cyp3a4` = "CYP3A4 Inhibition", `cyp2d6` = "CYP2D6 Inhibition",
`dockingScore` = "Docking Score". -/
structure Row where
  lipinski : Val
  pains : Val
  brenk : Val
  ames : Val
  hERG : Val
  carcinogenicity : Val
  dili : Val
  saScore : Val
  qed : Val
  mw : Val
  tpsa : Val
  wlogp : Val
  giAbsorption : Val
  caco2 : Val
  bbb : Val
  ppb : Val
  cyp3a4 : Val
  cyp2d6 : Val
  dockingScore : Val

/-- Stage 1, `apply_primary_filters` (admet_analysis.py lines 58-94):
hard rejects in priority order, then the hERG and DILI tier rules,
first match wins. -/
def apply_primary_filters (row : Row) : String × Option String :=
  if Val.eqStr row.lipinski "Fail" then ("REJECT", some "Lipinski Fail")
  else if Val.eqStr row.pains "Yes" then ("REJECT", some "PAINS Alert")
  else if Val.eqStr row.brenk "Yes" then ("REJECT", some "Brenk Alert")
  else if Val.eqStr row.ames "Positive" || Val.eqNum row.ames 1 then
    ("REJECT", some "Ames Positive")
  else
    let herg_val := getD row.hERG (Val.str "")
    if Val.eqStr herg_val "High" || Val.numGE herg_val (mkRat 7 10) then
      ("REJECT", some "hERG High Risk")
    else if Val.eqStr herg_val "Medium" || Val.numInBand herg_val (mkRat 3 10) (mkRat 7 10) then
      ("REVIEW", some "hERG Medium Risk")
    else if Val.eqStr row.carcinogenicity "Yes" || Val.eqNum row.carcinogenicity 1 then
      ("REJECT", some "Carcinogenic")
    else
      let dili_val := getD row.dili (Val.str "")
      if Val.eqStr dili_val "High" || Val.numGE dili_val (mkRat 7 10) then
        ("REJECT", some "DILI High Risk")
      else if Val.eqStr dili_val "Medium" || Val.numInBand dili_val (mkRat 3 10) (mkRat 7 10) then
        ("REVIEW", some "DILI Medium Risk")
      else ("PASS", none)

/-- One `if reject_cond: reject_reasons.append(msg) elif review_cond:
review_reasons.append(msg')` step of `apply_developability_filters`,
as the pair of its contributions to the two accumulators. -/
def sieve (rejCond revCond : Prop) [Decidable rejCond] [Decidable revCond]
    (rejMsg revMsg : String) : List String × List String :=
  if rejCond then ([rejMsg], [])
  else if revCond then ([], [revMsg])
  else ([], [])

/-- Stage 2, `apply_developability_filters` (lines 96-142): all five soft
constraints are evaluated, their triggered reasons accumulated, and the
outcome is REJECT / REVIEW / ACCEPT by which accumulator is nonempty. -/
def apply_developability_filters (row : Row) : String × Option String :=
  let sa := get_float row.saScore 5
  let qed := get_float row.qed (mkRat 3 5)
  let mw := get_float row.mw 400
  let tpsa := get_float row.tpsa 100
  let wlogp := get_float row.wlogp 3
  let p1 := sieve (sa > 6) (5 < sa ∧ sa ≤ 6) "SA > 6.0" "SA 5.0-6.0"
  let p2 := sieve (qed < mkRat 2 5) (mkRat 2 5 ≤ qed ∧ qed < mkRat 3 5) "QED < 0.4" "QED 0.4-0.6"
  let p3 := sieve (mw > 550) (500 ≤ mw ∧ mw ≤ 550) "MW > 550" "MW 500-550"
  let p4 := sieve (tpsa > 160) (140 ≤ tpsa ∧ tpsa ≤ 160) "TPSA > 160" "TPSA 140-160"
  let p5 := sieve (wlogp > 6) (5 ≤ wlogp ∧ wlogp ≤ 6) "WLogP > 6" "WLogP 5-6"
  let reject_reasons := p1.1 ++ p2.1 ++ p3.1 ++ p4.1 ++ p5.1
  let review_reasons := p1.2 ++ p2.2 ++ p3.2 ++ p4.2 ++ p5.2
  if reject_reasons ≠ [] then ("REJECT", some (String.intercalate "; " reject_reasons))
  else if review_reasons ≠ [] then ("REVIEW", some (String.intercalate "; " review_reasons))
  else ("ACCEPT", none)

/-- Stage 3, `calculate_adme_penalties` (lines 144-184): purely additive
penalty points from the secondary ADME risk flags. -/
def calculate_adme_penalties (row : Row) : ℤ :=
  let gi := getD row.giAbsorption (Val.str "High")
  let giP : ℤ := if Val.eqStr gi "Medium" || Val.eqStr gi "Moderate" then 5 else 0
  let caco2 := getD row.caco2 (Val.str "")
  let cacoP : ℤ := if Val.eqStr caco2 "Moderate" then 5 else 0
  let bbb := getD row.bbb (Val.str "")
  let bbbP : ℤ := if Val.eqStr bbb "Borderline" then 5 else 0
  let ppb := get_float row.ppb 90
  let ppbP : ℤ := if ppb ≥ 95 then 5 else 0
  let cypAP : ℤ :=
    if Val.eqStr row.cyp3a4 "Yes" || Val.eqStr row.cyp3a4 "Weak" || Val.eqNum row.cyp3a4 1
    then 5 else 0
  let cypDP : ℤ :=
    if Val.eqStr row.cyp2d6 "Yes" || Val.eqStr row.cyp2d6 "Weak" || Val.eqNum row.cyp2d6 1
    then 5 else 0
  let herg := getD row.hERG (Val.str "")
  let hergP : ℤ :=
    if Val.eqStr herg "Medium" || Val.numInBand herg (mkRat 3 10) (mkRat 7 10) then 10 else 0
  giP + cacoP + bbbP + ppbP + cypAP + cypDP + hergP

/-- Lines 203-215 of `calculate_developability_score`: the continuation
after the SA branch, with the SA contribution already in `penalty`. -/
def score_after_sa (row : Row) (penalty : ℤ) : ℤ :=
  let qed := get_float row.qed (mkRat 3 5)
  let penalty := penalty + (if qed < mkRat 3 5 then 10 else 0)
  let penalty := penalty + calculate_adme_penalties row
  max 0 (100 - penalty)

/-- Stage 4, `calculate_developability_score` (lines 186-215): base 100,
SA-band penalty or the SA > 6.0 early return of 0, then QED and ADME
penalties, floored at 0.  The `docking_score` argument is never read. -/
def calculate_developability_score (row : Row) (docking_score : Val) : ℤ :=
  let sa := get_float row.saScore 5
  if 5 ≤ sa ∧ sa ≤ 6 then score_after_sa row 10
  else if sa > 6 then 0
  else score_after_sa row 0

/-- Spec §4.5 variant of the Composite Scorer for the refinement claim:
the SA > 6.0 early return is removed and the computation simply
"continues accumulating the QED and ADME penalties and returns
max(0, 100 − penalty)". -/
def calculate_developability_score_no_early_return (row : Row) (docking_score : Val) : ℤ :=
  let sa := get_float row.saScore 5
  if 5 ≤ sa ∧ sa ≤ 6 then score_after_sa row 10
  else score_after_sa row 0

/-- Stage 5, `make_final_decision` (lines 217-226): score-tier label. -/
def make_final_decision (developability_score : ℤ) : String :=
  if developability_score ≥ 75 then "ACCEPT"
  else if 60 ≤ developability_score ∧ developability_score < 75 then "REVIEW"
  else "REJECT"

/-- Python string formatting of a reason that may be `None`. -/
def reason_text : Option String → String
  | some s => s
  | none => "None"

/-- The per-row body of `run_admet_prediction` (lines 332-365): primary
filters, developability filters, composite score, score-based decision,
and the REVIEW-warning override.  Returns the final decision string and
the recorded developability score. -/
def process_row (row : Row) : String × ℤ :=
  let pr := apply_primary_filters row
  if pr.1 = "REJECT" then ("REJECT (" ++ reason_text pr.2 ++ ")", 0)
  else
    let dr := apply_developability_filters row
    if dr.1 = "REJECT" then ("REJECT (" ++ reason_text dr.2 ++ ")", 0)
    else
      let score := calculate_developability_score row row.dockingScore
      let final_dec := make_final_decision score
      let warnings :=
        (if pr.1 = "REVIEW" then [reason_text pr.2] else []) ++
        (if dr.1 = "REVIEW" then [reason_text dr.2] else [])
      if warnings ≠ [] then
        let warning_text := String.intercalate "; " warnings
        if final_dec = "ACCEPT" then ("REVIEW (" ++ warning_text ++ ")", score)
        else (final_dec ++ " (" ++ warning_text ++ ")", score)
      else (final_dec, score)

/-! ## Concrete rows used as test inputs -/

/-- A row with every cell absent. -/
def blankRow : Row :=
  { lipinski := Val.missing, pains := Val.missing, brenk := Val.missing,
    ames := Val.missing, hERG := Val.missing, carcinogenicity := Val.missing,
    dili := Val.missing, saScore := Val.missing, qed := Val.missing,
    mw := Val.missing, tpsa := Val.missing, wlogp := Val.missing,
    giAbsorption := Val.missing, caco2 := Val.missing, bbb := Val.missing,
    ppb := Val.missing, cyp3a4 := Val.missing, cyp2d6 := Val.missing,
    dockingScore := Val.missing }

/-- Spec §8 Scenario D: `herg = 0.5`, `qed = 0.5`, every other field as in
Scenario A (`lipinski` pass, no PAINS/Brenk/Ames, `dili = 0.1`, no
carcinogenicity, `sa = 4.0`, `mw = 300`, `tpsa = 60`, `logP = 2`,
GI/Caco-2/BBB "High", `ppb = 50`, CYP3A4/CYP2D6 false). -/
def scenarioD : Row :=
  { lipinski := Val.str "Pass", pains := Val.str "No", brenk := Val.str "No",
    ames := Val.num 0, hERG := Val.num (mkRat 1 2), carcinogenicity := Val.num 0,
    dili := Val.num (mkRat 1 10), saScore := Val.num 4, qed := Val.num (mkRat 1 2),
    mw := Val.num 300, tpsa := Val.num 60, wlogp := Val.num 2,
    giAbsorption := Val.str "High", caco2 := Val.str "High", bbb := Val.str "High",
    ppb := Val.num 50, cyp3a4 := Val.num 0, cyp2d6 := Val.num 0,
    dockingScore := Val.num (-7) }

/-- A row whose only present cell is `SA Score = 7`. -/
def saRow7 : Row := { blankRow with saScore := Val.num 7 }

/-- A row triggering one reject condition (`MW = 600 > 550`) and one
review condition (`QED = 0.5` in `[0.4, 0.6)`) of the developability
filter, all other cells absent. -/
def mwQedRow : Row := { blankRow with mw := Val.num 600, qed := Val.num (mkRat 1 2) }

/-! ## C1: Scenario D -/

/-- C1, counterexample: on the Scenario D record the final decision
string is not "ACCEPT (hERG Medium Risk; QED 0.4-0.6)" as the claim
states (the REVIEW-warning override downgrades the score-based ACCEPT). -/
theorem C1_scenarioD_counterexample :
    (process_row scenarioD).1 ≠ "ACCEPT (hERG Medium Risk; QED 0.4-0.6)" := by decide

/-- C1, amended: on the Scenario D record the primary filter returns
REVIEW "hERG Medium Risk", the developability filter returns REVIEW
"QED 0.4-0.6", the ADME penalty is 10 (hERG medium band), the total
penalty is 20 (plus 10 for QED < 0.6) giving developability score 80,
and the final decision string is
"REVIEW (hERG Medium Risk; QED 0.4-0.6)". -/
theorem C1_scenarioD_amended :
    apply_primary_filters scenarioD = ("REVIEW", some "hERG Medium Risk") ∧
    apply_developability_filters scenarioD = ("REVIEW", some "QED 0.4-0.6") ∧
    calculate_adme_penalties scenarioD = 10 ∧
    (if get_float scenarioD.qed (mkRat 3 5) < mkRat 3 5 then (10 : ℤ) else 0) +
      calculate_adme_penalties scenarioD = 20 ∧
    calculate_developability_score scenarioD scenarioD.dockingScore = 80 ∧
    process_row scenarioD = ("REVIEW (hERG Medium Risk; QED 0.4-0.6)", 80) := by decide

/-! ## C3: the SA > 6.0 early return vs. the spec's no-early-return variant -/

/-- C3, counterexample: on a row whose SA score is 7 the early-return
scorer yields 0 while the spec's no-early-return variant yields 100, so
the two definitions are not equivalent on every input record. -/
theorem C3_counterexample :
    calculate_developability_score saRow7 Val.missing = 0 ∧
    calculate_developability_score_no_early_return saRow7 Val.missing = 100 ∧
    calculate_developability_score saRow7 Val.missing ≠
      calculate_developability_score_no_early_return saRow7 Val.missing := by decide

/-- C3, amended: the two scorers agree on every record whose parsed
synthetic accessibility is at most 6.0 (in particular on every record
that survives the developability filter, which rejects SA > 6.0). -/
theorem C3_equiv_on_sa_le_6 (row : Row) (d d' : Val)
    (h : get_float row.saScore 5 ≤ 6) :
    calculate_developability_score row d =
      calculate_developability_score_no_early_return row d' := by
  simp only [calculate_developability_score, calculate_developability_score_no_early_return]
  split_ifs with h1 h2
  · rfl
  · exact absurd h2 (not_lt.mpr h)
  · rfl

/-- Witness for `C3_equiv_on_sa_le_6` at the Scenario D record. -/
theorem C3_equiv_on_sa_le_6_witness :
    calculate_developability_score scenarioD Val.missing =
      calculate_developability_score_no_early_return scenarioD Val.missing :=
  C3_equiv_on_sa_le_6 scenarioD Val.missing Val.missing (by decide)

/-! ## C4: developability-filter reason accumulation -/

/-- C4, counterexample: on a row with `MW = 600` (reject condition) and
`QED = 0.5` (review condition) the filter returns reason "MW > 550"
only; the triggered review sub-reason "QED 0.4-0.6" does not appear, so
the reason is not the join of all triggered sub-reasons. -/
theorem C4_counterexample :
    apply_developability_filters mwQedRow = ("REJECT", some "MW > 550") ∧
    (mkRat 2 5 ≤ get_float mwQedRow.qed (mkRat 3 5) ∧
      get_float mwQedRow.qed (mkRat 3 5) < mkRat 3 5) ∧
    some "MW > 550" ≠ some "QED 0.4-0.6; MW > 550" ∧
    some "MW > 550" ≠ some "MW > 550; QED 0.4-0.6" := by decide

/-- The reject-side contribution of one constraint step. -/
theorem sieve_fst (rc vc : Prop) [Decidable rc] [Decidable vc] (a b : String) :
    (sieve rc vc a b).1 = if rc then [a] else [] := by
  unfold sieve
  split_ifs <;> rfl

/-- The review-side contribution of one constraint step: triggered only
when the same constraint's reject condition does not hold. -/
theorem sieve_snd (rc vc : Prop) [Decidable rc] [Decidable vc] (a b : String) :
    (sieve rc vc a b).2 = if ¬ rc ∧ vc then [b] else [] := by
  unfold sieve
  split_ifs <;> simp_all

/-- C4, amended: every one of the five soft constraints is evaluated and
the outcome is REJECT if any reject condition holds, else REVIEW if any
review condition holds, else ACCEPT; the reason is the semicolon-join of
all triggered reject sub-reasons when the outcome is REJECT, else of all
triggered review sub-reasons (review sub-reasons are dropped when a
reject condition fires, rather than joined in). -/
theorem C4_reason_structure (row : Row) :
    apply_developability_filters row =
      (let sa := get_float row.saScore 5
       let qed := get_float row.qed (mkRat 3 5)
       let mw := get_float row.mw 400
       let tpsa := get_float row.tpsa 100
       let wlogp := get_float row.wlogp 3
       let reject_reasons :=
         (if sa > 6 then ["SA > 6.0"] else []) ++
         (if qed < mkRat 2 5 then ["QED < 0.4"] else []) ++
         (if mw > 550 then ["MW > 550"] else []) ++
         (if tpsa > 160 then ["TPSA > 160"] else []) ++
         (if wlogp > 6 then ["WLogP > 6"] else [])
       let review_reasons :=
         (if ¬ sa > 6 ∧ (5 < sa ∧ sa ≤ 6) then ["SA 5.0-6.0"] else []) ++
         (if ¬ qed < mkRat 2 5 ∧ (mkRat 2 5 ≤ qed ∧ qed < mkRat 3 5) then ["QED 0.4-0.6"] else []) ++
         (if ¬ mw > 550 ∧ (500 ≤ mw ∧ mw ≤ 550) then ["MW 500-550"] else []) ++
         (if ¬ tpsa > 160 ∧ (140 ≤ tpsa ∧ tpsa ≤ 160) then ["TPSA 140-160"] else []) ++
         (if ¬ wlogp > 6 ∧ (5 ≤ wlogp ∧ wlogp ≤ 6) then ["WLogP 5-6"] else [])
       if reject_reasons ≠ [] then
         ("REJECT", some (String.intercalate "; " reject_reasons))
       else if review_reasons ≠ [] then
         ("REVIEW", some (String.intercalate "; " review_reasons))
       else ("ACCEPT", none)) := by
  simp only [apply_developability_filters, sieve_fst, sieve_snd]

/-! ## C2: the REVIEW-warning override of the final label -/

/-- C2: when neither filter rejected but at least one returned REVIEW,
the warning text (the REVIEW reasons of the two filters, joined with
"; " when both are present) is appended in parentheses to the final
label, a score-based ACCEPT is downgraded to REVIEW, and the recorded
score is the composite score. -/
theorem C2_review_warning_override (row : Row)
    (hp : (apply_primary_filters row).1 ≠ "REJECT")
    (hd : (apply_developability_filters row).1 ≠ "REJECT")
    (hw : (apply_primary_filters row).1 = "REVIEW" ∨
          (apply_developability_filters row).1 = "REVIEW") :
    (process_row row).1 =
      (let final_dec := make_final_decision (calculate_developability_score row row.dockingScore)
       let warning_text := String.intercalate "; "
         ((if (apply_primary_filters row).1 = "REVIEW" then
             [reason_text (apply_primary_filters row).2] else []) ++
          (if (apply_developability_filters row).1 = "REVIEW" then
             [reason_text (apply_developability_filters row).2] else []))
       (if final_dec = "ACCEPT" then "REVIEW" else final_dec) ++ " (" ++ warning_text ++ ")") ∧
    (process_row row).2 = calculate_developability_score row row.dockingScore := by
  have hne :
      ((if (apply_primary_filters row).1 = "REVIEW" then
          [reason_text (apply_primary_filters row).2] else []) ++
       (if (apply_developability_filters row).1 = "REVIEW" then
          [reason_text (apply_developability_filters row).2] else [])) ≠ [] := by
    intro hc
    rcases hw with h | h <;> simp [h, List.append_eq_nil] at hc
  simp only [process_row]
  rw [if_neg hp, if_neg hd, if_pos hne]
  by_cases hacc :
      make_final_decision (calculate_developability_score row row.dockingScore) = "ACCEPT"
  · rw [if_pos hacc]
    exact ⟨by rw [if_pos hacc]; rfl, rfl⟩
  · rw [if_neg hacc]
    exact ⟨by rw [if_neg hacc], rfl⟩

/-- Witness for `C2_review_warning_override` at the Scenario D record. -/
theorem C2_review_warning_override_witness :
    (process_row scenarioD).1 = "REVIEW (hERG Medium Risk; QED 0.4-0.6)" :=
  (C2_review_warning_override scenarioD (by decide) (by decide) (Or.inl (by decide))).1.trans
    (by decide)


/-! ## Small evaluation lemmas for the cell predicates -/

theorem Val.eqStr_str (t s : String) : Val.eqStr (Val.str t) s = (t == s) := rfl

theorem Val.eqStr_num (q : ℚ) (s : String) : Val.eqStr (Val.num q) s = false := rfl

theorem Val.numGE_str (t : String) (c : ℚ) : Val.numGE (Val.str t) c = false := rfl

theorem Val.numGE_num (q c : ℚ) : Val.numGE (Val.num q) c = decide (c ≤ q) := rfl

theorem Val.numInBand_str (t : String) (lo hi : ℚ) :
    Val.numInBand (Val.str t) lo hi = false := rfl

theorem Val.numInBand_num (q lo hi : ℚ) :
    Val.numInBand (Val.num q) lo hi = (decide (lo ≤ q) && decide (q < hi)) := rfl

theorem getD_str (s : String) (d : Val) : getD (Val.str s) d = Val.str s := rfl

theorem getD_num (q : ℚ) (d : Val) : getD (Val.num q) d = Val.num q := rfl

/-! ## C5: numeric hERG boundaries of the primary filter -/

/-- C5: for a row that matches no primary rule before the hERG rule and
whose hERG cell is the number `q`, the filter REJECTs with
"hERG High Risk" for every `q ≥ 0.7`, REVIEWs with "hERG Medium Risk"
for every `q` in `[0.3, 0.7)`, and for `q < 0.3` neither hERG rule
triggers (the returned reason is never a hERG reason). -/
theorem C5_herg_numeric_boundaries (row : Row) (q : ℚ)
    (hlip : Val.eqStr row.lipinski "Fail" = false)
    (hpains : Val.eqStr row.pains "Yes" = false)
    (hbrenk : Val.eqStr row.brenk "Yes" = false)
    (hames : (Val.eqStr row.ames "Positive" || Val.eqNum row.ames 1) = false)
    (hherg : row.hERG = Val.num q) :
    (mkRat 7 10 ≤ q →
      apply_primary_filters row = ("REJECT", some "hERG High Risk")) ∧
    (mkRat 3 10 ≤ q ∧ q < mkRat 7 10 →
      apply_primary_filters row = ("REVIEW", some "hERG Medium Risk")) ∧
    (q < mkRat 3 10 →
      (apply_primary_filters row).2 ≠ some "hERG High Risk" ∧
      (apply_primary_filters row).2 ≠ some "hERG Medium Risk") := by
  simp only [apply_primary_filters, hlip, hpains, hbrenk, hames, hherg, getD_num,
    Val.eqStr_num, Val.numGE_num, Val.numInBand_num, Bool.false_or, Bool.or_false,
    Bool.and_eq_true, decide_eq_true_eq, Bool.false_eq_true, if_false]
  refine ⟨fun h1 => ?_, fun h2 => ?_, fun h3 => ?_⟩
  · rw [if_pos h1]
  · rw [if_neg (not_le.mpr h2.2), if_pos h2]
  · have hnh : ¬ mkRat 7 10 ≤ q := not_le.mpr (h3.trans (by norm_num))
    have hnm : ¬ (mkRat 3 10 ≤ q ∧ q < mkRat 7 10) := fun hc => absurd h3 (not_lt.mpr hc.1)
    rw [if_neg hnh, if_neg hnm]
    split_ifs <;> simp

/-- Witness for `C5_herg_numeric_boundaries`: a row whose hERG cell is
exactly 0.7 is rejected as "hERG High Risk". -/
theorem C5_herg_numeric_boundaries_witness :
    apply_primary_filters { blankRow with hERG := Val.num (mkRat 7 10) } =
      ("REJECT", some "hERG High Risk") :=
  (C5_herg_numeric_boundaries { blankRow with hERG := Val.num (mkRat 7 10) }
    (mkRat 7 10) rfl rfl rfl rfl rfl).1 (by decide)

/-! ## C8: the hERG REVIEW match wins over the later primary rules -/

/-- C8: a row whose hERG cell is categorical "Medium" or a number in
`[0.3, 0.7)` and that matched no earlier primary rule returns
REVIEW "hERG Medium Risk", whatever its carcinogenicity and DILI cells
hold — the carcinogenicity and DILI rules are never consulted. -/
theorem C8_herg_review_shadows_later_rules (row : Row)
    (hlip : Val.eqStr row.lipinski "Fail" = false)
    (hpains : Val.eqStr row.pains "Yes" = false)
    (hbrenk : Val.eqStr row.brenk "Yes" = false)
    (hames : (Val.eqStr row.ames "Positive" || Val.eqNum row.ames 1) = false)
    (hmed : row.hERG = Val.str "Medium" ∨
            ∃ q, row.hERG = Val.num q ∧ mkRat 3 10 ≤ q ∧ q < mkRat 7 10) :
    apply_primary_filters row = ("REVIEW", some "hERG Medium Risk") := by
  rcases hmed with h | ⟨q, hq, hq1, hq2⟩
  · simp only [apply_primary_filters, hlip, hpains, hbrenk, hames, h, getD_str,
      Val.eqStr_str, Val.numGE_str, Val.numInBand_str, Bool.or_false,
      Bool.false_eq_true, if_false]
    rfl
  · simp only [apply_primary_filters, hlip, hpains, hbrenk, hames, hq, getD_num,
      Val.eqStr_num, Val.numGE_num, Val.numInBand_num, Bool.false_or, Bool.or_false,
      Bool.and_eq_true, decide_eq_true_eq, Bool.false_eq_true, if_false]
    rw [if_neg (not_le.mpr hq2), if_pos ⟨hq1, hq2⟩]

/-- Witness for `C8_herg_review_shadows_later_rules`: hERG 0.5 together
with a truthy carcinogenicity cell still yields REVIEW, not REJECT. -/
theorem C8_herg_review_shadows_later_rules_witness :
    apply_primary_filters
      { blankRow with hERG := Val.num (mkRat 1 2), carcinogenicity := Val.str "Yes" } =
      ("REVIEW", some "hERG Medium Risk") :=
  C8_herg_review_shadows_later_rules
    { blankRow with hERG := Val.num (mkRat 1 2), carcinogenicity := Val.str "Yes" }
    rfl rfl rfl rfl (Or.inr ⟨mkRat 1 2, ⟨rfl, ⟨by decide, by decide⟩⟩⟩)

/-! ## C6: a Lipinski failure always rejects with score 0 -/

/-- C6: whatever the other cells hold, a row whose Lipinski cell is
"Fail" gets final decision "REJECT (Lipinski Fail)" and score 0. -/
theorem C6_lipinski_fail_rejects (row : Row) (h : row.lipinski = Val.str "Fail") :
    process_row row = ("REJECT (Lipinski Fail)", 0) := by
  have hp : apply_primary_filters row = ("REJECT", some "Lipinski Fail") := by
    simp only [apply_primary_filters, h, Val.eqStr_str]
    rfl
  simp only [process_row, hp]
  rfl

/-- Witness for `C6_lipinski_fail_rejects`. -/
theorem C6_lipinski_fail_rejects_witness :
    process_row { blankRow with lipinski := Val.str "Fail" } = ("REJECT (Lipinski Fail)", 0) :=
  C6_lipinski_fail_rejects { blankRow with lipinski := Val.str "Fail" } rfl

/-! ## C7: the recorded score is always in [0, 100] -/

/-- The ADME penalty is a sum of nonnegative contributions. -/
theorem calculate_adme_penalties_nonneg (row : Row) : 0 ≤ calculate_adme_penalties row := by
  simp only [calculate_adme_penalties]
  split_ifs <;> decide

/-- The post-SA part of the composite score is never negative. -/
theorem score_after_sa_nonneg (row : Row) (p : ℤ) : 0 ≤ score_after_sa row p := by
  simp only [score_after_sa]
  exact le_max_left 0 _

/-- The post-SA part of the composite score never exceeds 100 when the
incoming SA penalty is nonnegative. -/
theorem score_after_sa_le_100 (row : Row) (p : ℤ) (hp : 0 ≤ p) :
    score_after_sa row p ≤ 100 := by
  simp only [score_after_sa]
  have h1 : (0 : ℤ) ≤ (if get_float row.qed (mkRat 3 5) < mkRat 3 5 then (10 : ℤ) else 0) := by
    split_ifs <;> decide
  have h2 := calculate_adme_penalties_nonneg row
  refine max_le (by decide) ?_
  omega

/-- C7: for every row the ADME penalty is nonnegative and the recorded
developability score lies in [0, 100]. -/
theorem C7_score_in_range (row : Row) :
    0 ≤ calculate_adme_penalties row ∧
    0 ≤ (process_row row).2 ∧ (process_row row).2 ≤ 100 := by
  refine ⟨calculate_adme_penalties_nonneg row, ?_⟩
  have hs : 0 ≤ calculate_developability_score row row.dockingScore ∧
      calculate_developability_score row row.dockingScore ≤ 100 := by
    simp only [calculate_developability_score]
    split_ifs
    · exact ⟨score_after_sa_nonneg row 10, score_after_sa_le_100 row 10 (by decide)⟩
    · exact ⟨le_refl 0, by decide⟩
    · exact ⟨score_after_sa_nonneg row 0, score_after_sa_le_100 row 0 (by decide)⟩
  have h : (process_row row).2 = 0 ∨
      (process_row row).2 = calculate_developability_score row row.dockingScore := by
    simp only [process_row]
    split_ifs <;> simp
  rcases h with h | h <;> rw [h]
  · exact ⟨le_refl 0, by decide⟩
  · exact hs

/-! ## C9: the docking score never influences the outcome -/

/-- C9: two rows that differ only in their docking-score cell get the
same primary-filter result, developability-filter result, ADME penalty,
composite score and final decision record; in particular
`calculate_developability_score` never reads its docking argument. -/
theorem C9_docking_score_irrelevant (row : Row) (v v' : Val) :
    apply_primary_filters { row with dockingScore := v } =
      apply_primary_filters { row with dockingScore := v' } ∧
    apply_developability_filters { row with dockingScore := v } =
      apply_developability_filters { row with dockingScore := v' } ∧
    calculate_adme_penalties { row with dockingScore := v } =
      calculate_adme_penalties { row with dockingScore := v' } ∧
    calculate_developability_score { row with dockingScore := v } v =
      calculate_developability_score { row with dockingScore := v' } v' ∧
    process_row { row with dockingScore := v } =
      process_row { row with dockingScore := v' } := by
  cases row
  exact ⟨rfl, rfl, rfl, rfl, rfl⟩

/-! ## C10: the SA default sits in the scorer's band but not the filter's -/

/-- Scenario A of the spec with the SA cell absent: every other field is
neutral (passes everything, no penalties). -/
def saMissingRow : Row :=
  { lipinski := Val.str "Pass", pains := Val.str "No", brenk := Val.str "No",
    ames := Val.num 0, hERG := Val.num (mkRat 1 10), carcinogenicity := Val.num 0,
    dili := Val.num (mkRat 1 10), saScore := Val.missing, qed := Val.num (mkRat 4 5),
    mw := Val.num 300, tpsa := Val.num 60, wlogp := Val.num 2,
    giAbsorption := Val.str "High", caco2 := Val.str "High", bbb := Val.str "High",
    ppb := Val.num 50, cyp3a4 := Val.num 0, cyp2d6 := Val.num 0,
    dockingScore := Val.num (-7) }

/-- C10: when the SA cell is absent, an unparsable string, or exactly 5,
the parsed SA value is the default 5.0: the developability filter raises
no SA reason (its review band is strict at 5.0) while the composite
scorer adds its 10-point SA-band penalty (inclusive at 5.0), so an
otherwise penalty-free and warning-free row scores 90 — not 100 — with
final decision "ACCEPT" and no warning text. -/
theorem C10_sa_default_penalty_gap (row : Row)
    (hsa : row.saScore = Val.missing ∨ (∃ s, row.saScore = Val.str s) ∨
           row.saScore = Val.num 5)
    (hprimary : apply_primary_filters row = ("PASS", none))
    (hqed : mkRat 3 5 ≤ get_float row.qed (mkRat 3 5))
    (hmw : get_float row.mw 400 < 500)
    (htpsa : get_float row.tpsa 100 < 140)
    (hlogp : get_float row.wlogp 3 < 5)
    (hadme : calculate_adme_penalties row = 0) :
    apply_developability_filters row = ("ACCEPT", none) ∧
    calculate_developability_score row row.dockingScore = 90 ∧
    process_row row = ("ACCEPT", 90) := by
  have hsa5 : get_float row.saScore 5 = 5 := by
    rcases hsa with h | ⟨s, h⟩ | h <;> simp [h, get_float]
  have hdev : apply_developability_filters row = ("ACCEPT", none) := by
    have e2 : sieve (get_float row.qed (mkRat 3 5) < mkRat 2 5)
        (mkRat 2 5 ≤ get_float row.qed (mkRat 3 5) ∧
         get_float row.qed (mkRat 3 5) < mkRat 3 5) "QED < 0.4" "QED 0.4-0.6" = ([], []) := by
      unfold sieve
      rw [if_neg (not_lt.mpr (le_trans (by decide) hqed)),
          if_neg (fun hc => absurd hc.2 (not_lt.mpr hqed))]
    have e3 : sieve (get_float row.mw 400 > 550)
        (500 ≤ get_float row.mw 400 ∧ get_float row.mw 400 ≤ 550) "MW > 550" "MW 500-550" =
        ([], []) := by
      unfold sieve
      rw [if_neg (not_lt.mpr (le_of_lt (hmw.trans (by decide)))),
          if_neg (fun hc => absurd hmw (not_lt.mpr hc.1))]
    have e4 : sieve (get_float row.tpsa 100 > 160)
        (140 ≤ get_float row.tpsa 100 ∧ get_float row.tpsa 100 ≤ 160)
        "TPSA > 160" "TPSA 140-160" = ([], []) := by
      unfold sieve
      rw [if_neg (not_lt.mpr (le_of_lt (htpsa.trans (by decide)))),
          if_neg (fun hc => absurd htpsa (not_lt.mpr hc.1))]
    have e5 : sieve (get_float row.wlogp 3 > 6)
        (5 ≤ get_float row.wlogp 3 ∧ get_float row.wlogp 3 ≤ 6) "WLogP > 6" "WLogP 5-6" =
        ([], []) := by
      unfold sieve
      rw [if_neg (not_lt.mpr (le_of_lt (hlogp.trans (by decide)))),
          if_neg (fun hc => absurd hlogp (not_lt.mpr hc.1))]
    simp [apply_developability_filters, hsa5, e2, e3, e4, e5]
    decide
  have hscore : calculate_developability_score row row.dockingScore = 90 := by
    simp only [calculate_developability_score, hsa5]
    rw [if_pos (by decide : (5 : ℚ) ≤ 5 ∧ (5 : ℚ) ≤ 6)]
    simp only [score_after_sa, hadme]
    rw [if_neg (not_lt.mpr hqed)]
    decide
  refine ⟨hdev, hscore, ?_⟩
  simp only [process_row, hprimary, hdev, hscore]
  rfl

/-- Witness for `C10_sa_default_penalty_gap` at the missing-SA
Scenario A row. -/
theorem C10_sa_default_penalty_gap_witness :
    apply_developability_filters saMissingRow = ("ACCEPT", none) ∧
    calculate_developability_score saMissingRow saMissingRow.dockingScore = 90 ∧
    process_row saMissingRow = ("ACCEPT", 90) :=
  C10_sa_default_penalty_gap saMissingRow (Or.inl rfl) (by decide) (by decide)
    (by decide) (by decide) (by decide) (by decide)
